import Mathlib

/-!
Verification of the fenics-calc expression interpreter (`xcalc/interpreter.py`).

The development is a shallow embedding of the interpreter core.  Pure Python
functions become Lean functions; the only mutable state in the core — the pool
of dolfin `Function` objects whose coefficient vectors `make_function` writes —
becomes an explicit store (`Store`) threaded through evaluation, with a
`Function` value represented by its index into the store.  Python exceptions
become an explicit `Except Err` monad; each `Err` constructor names the error
class the specification assigns to the corresponding raise site.

External collaborators (dolfin/ufl/numpy) are modelled at the interface the
specification describes: an element is a scalar family/degree or a
vector/tensor element over a scalar sub-element; a space is (element, mesh
identity) with a per-component dof index list; numpy values are scalars, flat
arrays or matrices of rationals, with broadcasting on elementwise operators.
Numeric routines whose values are produced by external floating-point code and
on which no interpreter logic depends (transcendentals, `np.power`,
`np.linalg.inv`, `np.linalg.det`, `np.cross`, `np.inner`) are fields of a
`NumpyLib` record over which all theorems are universally quantified.
-/

namespace XCalc

/-- Error classes of the interpreter, named as in the specification's error
taxonomy (section 7).  `NumericError` stands for numeric-domain failures of the
underlying numpy library (broadcast/shape `ValueError`); `IndexError` for numpy
index errors; `TypeError` for Python-level attribute/constructor misuse
(e.g. `FunctionSpace(None, None)`, or querying `function_space` of a plain
number); `AssertionError` for the internal sanity asserts of
`numpy_op_indices` that the specification does not classify. -/
inductive Err where
  | UnsupportedOperatorError
  | InconsistentSpaceError
  | UnsupportedRankError
  | NumericError
  | IndexError
  | TypeError
  | AssertionError
deriving DecidableEq, Repr

/-- A mesh, seen through the interface the core needs: its identity
(`mesh.id()`) and — as the model of the external dofmap collaborator — the
number of dofs one scalar component of an element has on it. -/
structure Mesh where
  ident : Nat
  nscalar : Nat
deriving DecidableEq, Repr

/-- UFL elements at the interface the specification describes (section 6):
a scalar element is a family/degree pair; `VectorElement sub d` is the external
vector-element constructor producing `d` equal scalar sub-elements;
`TensorElement sub s` produces `s.prod` equal scalar sub-elements. -/
inductive UflElement where
  | finite (family : String) (degree : Nat)
  | VectorElement (sub : UflElement) (dim : Nat)
  | TensorElement (sub : UflElement) (shape : List Nat)
deriving DecidableEq, Repr

/-- `element.sub_elements()`: the per-component scalar sub-elements. -/
def UflElement.sub_elements : UflElement → List UflElement
  | .finite _ _ => []
  | .VectorElement sub d => List.replicate d sub
  | .TensorElement sub s => List.replicate s.prod sub

/-- `element.value_shape()` — the tensor shape of functions of this element,
also `f.ufl_shape` for a `Function` `f`. -/
def UflElement.value_shape : UflElement → List Nat
  | .finite _ _ => []
  | .VectorElement _ d => [d]
  | .TensorElement _ s => s

/-- A dolfin `FunctionSpace`, identified — as in the specification's data
model — by its element and its mesh. -/
structure FunctionSpace where
  ufl_element : UflElement
  mesh : Mesh
deriving DecidableEq, Repr

/-- `V.num_sub_spaces()`. -/
def FunctionSpace.num_sub_spaces (V : FunctionSpace) : Nat :=
  V.ufl_element.sub_elements.length

/-- `V.dim()`, the length of a coefficient array of a function in `V`:
one block of `nscalar` dofs per component (external dofmap model). -/
def FunctionSpace.dim (V : FunctionSpace) : Nat :=
  V.mesh.nscalar * max 1 V.num_sub_spaces

/-- `V.sub(comp).dofmap().dofs()` — dof index list of one component, in the
interleaved component layout of the external dofmap collaborator. -/
def FunctionSpace.sub_dofs (V : FunctionSpace) (comp : Nat) : List Nat :=
  (List.range V.mesh.nscalar).map (fun k => comp + k * V.num_sub_spaces)

/-- `V.dofmap().dofs()` — the dof index list of the whole (scalar) space. -/
def FunctionSpace.dofmap_dofs (V : FunctionSpace) : List Nat :=
  List.range V.dim

/-- A dolfin `Function`: its space and the local array of its coefficient
vector (`f.vector().get_local()`). -/
structure Function where
  function_space : FunctionSpace
  coefs : List ℚ
deriving DecidableEq, Repr

/-- The pool of allocated `Function` objects.  Evaluation threads it; a
`Function` value is an index into it. -/
abbrev Store := List Function

/-- Result of evaluation: a `Function` (by reference into the store) or a
plain Python number (`int`/`float`, modelled as a rational). -/
inductive Value where
  | fn (ref : Nat)
  | num (x : ℚ)
deriving DecidableEq, Repr

/-- A numpy value as the interpreter manipulates them: a scalar, a flat
1-d array, or a 2-d matrix (the interpreter constructs nothing of higher
rank; `make_space` rejects rank ≥ 3). -/
inductive NpVal where
  | scalar (x : ℚ)
  | vec (xs : List ℚ)
  | mat (rows : List (List ℚ))
deriving DecidableEq, Repr

instance : Inhabited (Except Err NpVal) := ⟨.error .TypeError⟩

/-! ### The numpy layer (external collaborator model) -/

/-- Elementwise application of a unary numpy ufunc. -/
def npMap1 (f : ℚ → ℚ) : NpVal → NpVal
  | .scalar x => .scalar (f x)
  | .vec xs => .vec (xs.map f)
  | .mat rows => .mat (rows.map (·.map f))

/-- Binary numpy ufunc with broadcasting: scalars broadcast against arrays;
1-d arrays combine elementwise when the lengths agree or one length is 1;
matrices combine elementwise when the shapes agree.  Mixed 1-d/2-d
broadcasts are not modelled (the interpreter never produces them) and map
to the numeric-domain error numpy raises on incompatible shapes. -/
def broadcast2 (f : ℚ → ℚ → ℚ) : NpVal → NpVal → Except Err NpVal
  | .scalar a, .scalar b => .ok (.scalar (f a b))
  | .scalar a, .vec bs => .ok (.vec (bs.map (fun b => f a b)))
  | .scalar a, .mat B => .ok (.mat (B.map (·.map (fun b => f a b))))
  | .vec as, .scalar b => .ok (.vec (as.map (fun a => f a b)))
  | .mat A, .scalar b => .ok (.mat (A.map (·.map (fun a => f a b))))
  | .vec as, .vec bs =>
    if as.length = bs.length then .ok (.vec (List.zipWith f as bs))
    else if as.length = 1 then .ok (.vec (bs.map (fun b => f (as.getD 0 0) b)))
    else if bs.length = 1 then .ok (.vec (as.map (fun a => f a (bs.getD 0 0))))
    else .error .NumericError
  | .mat A, .mat B =>
    if A.length = B.length ∧ (A.zip B).all (fun p => p.1.length = p.2.length)
    then .ok (.mat (List.zipWith (List.zipWith f) A B))
    else .error .NumericError
  | _, _ => .error .NumericError

/-- `np.transpose`: transposes a matrix; a 1-d array or scalar is returned
unchanged. -/
def npT : NpVal → NpVal
  | .scalar x => .scalar x
  | .vec xs => .vec xs
  | .mat rows => .mat rows.transpose

/-- `np.trace`: sum of the diagonal of a matrix; fails on inputs of rank
less than 2 as numpy does. -/
def npTrace : NpVal → Except Err NpVal
  | .mat rows =>
    let n := (rows.headD []).length
    .ok (.scalar (((List.range (min rows.length n)).map
      (fun i => ((rows.getD i []).getD i 0))).sum))
  | _ => .error .NumericError

/-- Dot product of two flat rational arrays. -/
def dotQ (a b : List ℚ) : ℚ := (List.zipWith (fun x y => x * y) a b).sum

/-- `np.dot`: scalar multiplication when either side is a scalar,
inner product of 1-d arrays, matrix-vector, vector-matrix and
matrix-matrix products, with numpy's shape checks. -/
def npDot : NpVal → NpVal → Except Err NpVal
  | .scalar a, y => .ok (npMap1 (fun v => a * v) y)
  | x, .scalar b => .ok (npMap1 (fun v => v * b) x)
  | .vec a, .vec b =>
    if a.length = b.length then .ok (.scalar (dotQ a b)) else .error .NumericError
  | .mat A, .vec b =>
    if A.all (fun r => r.length = b.length) then .ok (.vec (A.map (fun r => dotQ r b)))
    else .error .NumericError
  | .vec a, .mat B =>
    if B.length = a.length then .ok (.vec (B.transpose.map (fun c => dotQ a c)))
    else .error .NumericError
  | .mat A, .mat B =>
    if A.all (fun r => r.length = B.length)
    then .ok (.mat (A.map (fun r => B.transpose.map (fun c => dotQ r c))))
    else .error .NumericError

/-- `np.eye n`. -/
def eyeQ (n : Nat) : List (List ℚ) :=
  (List.range n).map (fun i => (List.range n).map (fun j => if i = j then 1 else 0))

/-- `np.outer`: flattens both arguments and forms the outer-product matrix. -/
def npOuter (a b : NpVal) : NpVal :=
  let fl : NpVal → List ℚ
    | .scalar x => [x]
    | .vec xs => xs
    | .mat rows => rows.flatten
  .mat ((fl a).map (fun x => (fl b).map (fun y => x * y)))

/-- `x.flatten()`: row-major flattening to a 1-d array (numpy scalars also
support it, giving a length-1 array). -/
def npFlatten : NpVal → List ℚ
  | .scalar x => [x]
  | .vec xs => xs
  | .mat rows => rows.flatten

/-- Split a flat list into `m` rows of `n` entries. -/
def chunkRows (m n : Nat) (xs : List ℚ) : List (List ℚ) :=
  (List.range m).map (fun i => ((xs.drop (i * n)).take n))

/-- `x.reshape(shape)` of a flat array, for the ranks the interpreter uses;
fails when the size does not match, as numpy does.  Rank ≥ 3 targets are not
representable in `NpVal` (unreachable: element value shapes have rank ≤ 2)
and map to the numeric-domain error. -/
def npReshape (shape : List Nat) (xs : List ℚ) : Except Err NpVal :=
  match shape with
  | [] => if xs.length = 1 then .ok (.scalar (xs.getD 0 0)) else .error .NumericError
  | [n] => if xs.length = n then .ok (.vec xs) else .error .NumericError
  | [m, n] => if xs.length = m * n then .ok (.mat (chunkRows m n xs)) else .error .NumericError
  | _ => .error .NumericError

/-- External numeric routines the interpreter's kernel tables reference but
whose numeric values no interpreter logic inspects: the transcendental
ufuncs and the linear-algebra/product routines that run in external
floating-point code.  All theorems hold for every implementation. -/
structure NumpyLib where
  sin : ℚ → ℚ
  cos : ℚ → ℚ
  sqrt : ℚ → ℚ
  exp : ℚ → ℚ
  log : ℚ → ℚ
  tan : ℚ → ℚ
  sinh : ℚ → ℚ
  cosh : ℚ → ℚ
  tanh : ℚ → ℚ
  arcsin : ℚ → ℚ
  arccos : ℚ → ℚ
  arctan : ℚ → ℚ
  arctan2 : ℚ → ℚ → ℚ
  power : ℚ → ℚ → ℚ
  inv : NpVal → Except Err NpVal
  det : NpVal → Except Err NpVal
  cross : NpVal → NpVal → Except Err NpVal
  inner : NpVal → NpVal → Except Err NpVal

/-- A numeric kernel: one entry of a rule table, applied to the evaluated
operand values. -/
abbrev Kernel := List NpVal → Except Err NpVal

/-- Apply a total unary routine as a kernel (wrong arity is a Python
`TypeError`). -/
def k1 (f : NpVal → NpVal) : Kernel
  | [a] => .ok (f a)
  | _ => .error .TypeError

/-- Apply a fallible unary routine as a kernel. -/
def k1E (f : NpVal → Except Err NpVal) : Kernel
  | [a] => f a
  | _ => .error .TypeError

/-- Apply a fallible binary routine as a kernel. -/
def k2E (f : NpVal → NpVal → Except Err NpVal) : Kernel
  | [a, b] => f a b
  | _ => .error .TypeError

/-- A unary elementwise ufunc as a kernel. -/
def ufunc1 (f : ℚ → ℚ) : Kernel := k1 (npMap1 f)

/-- A binary broadcasting ufunc as a kernel. -/
def ufunc2 (f : ℚ → ℚ → ℚ) : Kernel := k2E (broadcast2 f)

/-- Symbolic operator kinds: one tag per UFL node class the source's rule
tables key on, plus kinds (`Indexed`, `Grad`) of UFL nodes that appear in
neither table (the source marks `Indexed` as unimplemented). -/
inductive OpKind where
  | Sum | Abs | Division | Product | Power
  | Sin | Cos | Sqrt | Exp | Ln | Tan | Sinh | Cosh | Tanh
  | Asin | Acos | Atan | Atan2
  | Inverse | Transposed | Sym | Skew | Deviatoric | Cofactor
  | Determinant | Trace | Dot | Cross | Outer | Inner
  | Indexed | Grad
deriving DecidableEq, Repr

/-- `SAME_SPACE_RULES`: operator kind to numeric kernel, for expressions that
end up in the same space as their arguments (interpreter.py lines 8-25). -/
def SAME_SPACE_RULES (lib : NumpyLib) : OpKind → Option Kernel
  | .Sum => some (ufunc2 (fun a b => a + b))
  | .Abs => some (ufunc1 (fun a => |a|))
  | .Division => some (ufunc2 (fun a b => a / b))
  | .Product => some (ufunc2 (fun a b => a * b))
  | .Power => some (ufunc2 lib.power)
  | .Sin => some (ufunc1 lib.sin)
  | .Cos => some (ufunc1 lib.cos)
  | .Sqrt => some (ufunc1 lib.sqrt)
  | .Exp => some (ufunc1 lib.exp)
  | .Ln => some (ufunc1 lib.log)
  | .Tan => some (ufunc1 lib.tan)
  | .Sinh => some (ufunc1 lib.sinh)
  | .Cosh => some (ufunc1 lib.cosh)
  | .Tanh => some (ufunc1 lib.tanh)
  | .Asin => some (ufunc1 lib.arcsin)
  | .Acos => some (ufunc1 lib.arccos)
  | .Atan => some (ufunc1 lib.arctan)
  | .Atan2 => some (ufunc2 lib.arctan2)
  | _ => none

/-- `DIFFERENT_SPACE_RULES`: operator kind to numeric kernel for expressions
that in general change space (interpreter.py lines 30-41).  The `Sym`,
`Skew`, `Deviatoric` and `Cofactor` entries are the source's lambda
expressions, composed from the numpy routines exactly as written there. -/
def DIFFERENT_SPACE_RULES (lib : NumpyLib) : OpKind → Option Kernel
  | .Inverse => some (k1E lib.inv)
  | .Transposed => some (k1 npT)
  | .Sym => some (k1E (fun A =>
      (broadcast2 (fun a b => a + b) A (npT A)).bind (fun s =>
        .ok (npMap1 (fun v => (1/2 : ℚ) * v) s))))
  | .Skew => some (k1E (fun A =>
      (broadcast2 (fun a b => a - b) A (npT A)).bind (fun s =>
        .ok (npMap1 (fun v => (1/2 : ℚ) * v) s))))
  | .Deviatoric => some (k1E (fun A =>
      (npTrace A).bind (fun t =>
        match A, t with
        | .mat rows, .scalar tr =>
          broadcast2 (fun a b => a - b) (.mat rows)
            (npMap1 (fun v => tr * v * (1 / (rows.length : ℚ))) (.mat (eyeQ rows.length)))
        | _, _ => .error .NumericError)))
  | .Cofactor => some (k1E (fun A =>
      (lib.det A).bind (fun d =>
        (lib.inv A).bind (fun iA =>
          broadcast2 (fun a b => a * b) d (npT iA)))))
  | .Determinant => some (k1E lib.det)
  | .Trace => some (k1E npTrace)
  | .Dot => some (k2E npDot)
  | .Cross => some (k2E lib.cross)
  | .Outer => some (k2E (fun a b => .ok (npOuter a b)))
  | .Inner => some (k2E lib.inner)
  | _ => none

/-! ### Iterator utilities (`itertools.izip` / fancy indexing) -/

/-- Length of the shortest of a family of lists (0 for an empty family). -/
def minLen (ls : List (List α)) : Nat :=
  match ls with
  | [] => 0
  | l :: rest => rest.foldl (fun m l2 => min m l2.length) l.length

/-- `izip(*ls)`: transpose truncated at the shortest list; `izip()` with no
iterators is empty. -/
def izipN [Inhabited α] (ls : List (List α)) : List (List α) :=
  match ls with
  | [] => []
  | _ :: _ => (List.range (minLen ls)).map (fun k => ls.map (fun l => l.getD k default))

/-- numpy fancy indexing `coefs[index]` of a flat array by a list of
indices; an out-of-range index raises. -/
def fancyIndex (coefs : List ℚ) (index : List Nat) : Except Err (List ℚ) :=
  if index.all (fun i => i < coefs.length)
  then .ok (index.map (fun i => coefs.getD i 0))
  else .error .IndexError

/-- numpy indexing `coefs[i]` of a flat array by one index. -/
def getScalar (coefs : List ℚ) (i : Nat) : Except Err NpVal :=
  if i < coefs.length then .ok (.scalar (coefs.getD i 0)) else .error .IndexError

/-- Fancy indexing on an `NpVal` (only flat arrays are indexable here). -/
def npIndexList (v : NpVal) (index : List Nat) : Except Err (List ℚ) :=
  match v with
  | .vec xs => fancyIndex xs index
  | _ => .error .IndexError

/-- Single indexing on an `NpVal`. -/
def npIndexOne (v : NpVal) (i : Nat) : Except Err NpVal :=
  match v with
  | .vec xs => getScalar xs i
  | _ => .error .IndexError

/-- Error-propagating map, evaluating left to right and stopping at the
first failure (the order Python raises in). -/
def mapE (f : α → Except Err β) : List α → Except Err (List β)
  | [] => .ok []
  | a :: as =>
    match f a with
    | .error e => .error e
    | .ok b =>
      match mapE f as with
      | .error e => .error e
      | .ok bs => .ok (b :: bs)

/-! ### Space and index reconciler (interpreter.py lines 76-202) -/

/-- `make_function(V, coefs)` (lines 76-82): create a new `Function` in `V`
and set its whole coefficient vector.  In the store model this allocates a
fresh reference; `set_local` requires a flat array of the space's dof count
(the external vector layer rejects anything else). -/
def make_function (V : FunctionSpace) (coefs : NpVal) (σ : Store) :
    Except Err (Value × Store) :=
  match coefs with
  | .vec xs =>
    if xs.length = V.dim then .ok (.fn σ.length, σ ++ [⟨V, xs⟩])
    else .error .TypeError
  | _ => .error .TypeError

/-- `coefs_of(f)` (lines 85-92): the coefficient array of a `Function`
(a fresh copy of its vector's local array), or the number itself. -/
def coefs_of (σ : Store) : Value → Except Err NpVal
  | .fn r =>
    match σ[r]? with
    | some f => .ok (.vec f.coefs)
    | none => .error .TypeError
  | .num x => .ok (.scalar x)

/-- `f.function_space()` — numbers have no function space
(`AttributeError`, modelled as `TypeError`). -/
def function_space_of (σ : Store) : Value → Except Err FunctionSpace
  | .fn r =>
    match σ[r]? with
    | some f => .ok f.function_space
    | none => .error .TypeError
  | .num _ => .error .TypeError

/-- Loop body of `space_of` (lines 95-109): numbers are filtered out; the
first `Function` is adopted as the `(element, mesh)` reference; each later
`Function` must match it in element and mesh identity (the `assert`, i.e.
the specification's `InconsistentSpaceError`).  With no `Function` operand
the final `FunctionSpace(None, None)` call fails in the external
constructor. -/
def space_of_go (σ : Store) : List Value → Option (UflElement × Mesh) →
    Except Err FunctionSpace
  | [], none => .error .TypeError
  | [], some em => .ok ⟨em.1, em.2⟩
  | .num _ :: rest, acc => space_of_go σ rest acc
  | .fn r :: rest, acc =>
    match σ[r]? with
    | none => .error .TypeError
    | some f =>
      match acc with
      | none => space_of_go σ rest (some (f.function_space.ufl_element, f.function_space.mesh))
      | some em =>
        if f.function_space.ufl_element = em.1 ∧ em.2.ident = f.function_space.mesh.ident
        then space_of_go σ rest acc
        else .error .InconsistentSpaceError

/-- `space_of(foos)` (lines 95-109). -/
def space_of (σ : Store) (foos : List Value) : Except Err FunctionSpace :=
  space_of_go σ foos none

/-- The per-space step of `common_sub_element` (lines 180-183): a scalar
space contributes its own element; a product space contributes its unique
scalar sub-element (`V_, = set(...)` — a non-singleton set fails to
unpack, i.e. the operands do not share one consistent element). -/
def sub_element_of (V : FunctionSpace) : Except Err UflElement :=
  if V.num_sub_spaces = 0 then .ok V.ufl_element
  else
    match V.ufl_element.sub_elements.dedup with
    | [e] => .ok e
    | _ => .error .InconsistentSpaceError

/-- Loop of `common_sub_element` (lines 176-188): folds over the spaces,
asserting each one's (sub-)element equals the running one.  With no spaces
the source returns `None`, which the caller cannot use (modelled as the
`TypeError` the `None` would cause; unreachable for real operator nodes). -/
def common_go : List FunctionSpace → Option UflElement → Except Err UflElement
  | [], none => .error .TypeError
  | [], some V => .ok V
  | s :: rest, acc =>
    match sub_element_of s with
    | .error e => .error e
    | .ok V2 =>
      match acc with
      | none => common_go rest (some V2)
      | some V => if V = V2 then common_go rest (some V2) else .error .InconsistentSpaceError

/-- `common_sub_element(spaces)` (lines 176-188). -/
def common_sub_element (spaces : List FunctionSpace) : Except Err UflElement :=
  common_go spaces none

/-- `make_space(V, shape, mesh)` (lines 191-202): the scalar element for a
shape-less result; `VectorElement(V, len(shape))` for a rank-1 shape;
`TensorElement(V, shape)` for a rank-2 shape; rank ≥ 3 raises (the
specification's `UnsupportedRankError`).  Note the source passes
`len(shape)` — the rank, always 1 in that branch — where the vector
dimension belongs. -/
def make_space (V : UflElement) (shape : List Nat) (mesh : Mesh) :
    Except Err FunctionSpace :=
  if shape = [] then .ok ⟨V, mesh⟩
  else if shape.length = 1 then .ok ⟨.VectorElement V shape.length, mesh⟩
  else if shape.length = 2 then .ok ⟨.TensorElement V shape, mesh⟩
  else .error .UnsupportedRankError

/-- `numpy_op_indices(V, shape)` (lines 160-173): for a product space, the
truncating zip of the per-component dof lists — one index list per dof; for
a scalar space, the plain dof iterator.  The two `assert`s tie the space's
sub-space count to the shape's rank. -/
def numpy_op_indices (V : FunctionSpace) (shape : List Nat) :
    Except Err (List (List Nat) ⊕ List Nat) :=
  let nsubs := V.num_sub_spaces
  if nsubs ≠ 0 then
    if shape.length ≠ 0 then
      .ok (.inl (izipN ((List.range nsubs).map (fun comp => V.sub_dofs comp))))
    else .error .AssertionError
  else
    if shape.length = 0 then .ok (.inr V.dofmap_dofs) else .error .AssertionError

/-! ### Tensor-reshaping evaluator (`numpy_reshaped`, lines 112-157) -/

/-- The eagerly bound part of one operand's generator expression
(`get`, lines 131-135): the genexp evaluates only its outermost iterable —
the dof index iterator — when created, and remembers which branch built
it.  Its body (`reshape(arg_coefs[index])` resp. `arg_coefs[index]`) keeps
`arg_coefs` and `reshape` as *free variables* of the enclosing scope, to be
resolved only when the stream is consumed, after the argument loop has
finished. -/
inductive GetStream where
  | reshaped (indices : List (List Nat))
  | direct (indices : List Nat)
deriving DecidableEq, Repr

/-- The variables of `numpy_reshaped`'s argument loop that outlive it and
that the generator bodies (and line 143's `V.mesh()`) resolve against
their *final* values: `arg_coefs` and `V`, rebound on every iteration, and
`reshape`, rebound only on iterations with a nonempty shape — its lambda's
default argument `s=shape` froze the shape of the iteration that created
it.  `none` models the name being still unbound (a `NameError` when
used). -/
structure LoopState where
  arg_coefs : Option NpVal
  V : Option FunctionSpace
  reshape_shape : Option (List Nat)
deriving Repr

/-- One iteration of the argument loop (lines 121-137), eager part: read
the operand's coefficient array, query its space and shape, build its dof
index iterator and create the generator — returning the generator's eager
data together with this iteration's `arg_coefs` and `V` bindings. -/
def arg_step (σ : Store) (arg : Value) :
    Except Err (GetStream × NpVal × FunctionSpace) :=
  match coefs_of σ arg with
  | .error e => .error e
  | .ok arg_coefs =>
    match function_space_of σ arg with
    | .error e => .error e
    | .ok V =>
      let shape := V.ufl_element.value_shape
      match numpy_op_indices V shape with
      | .error e => .error e
      | .ok (.inl indices) =>
        -- `shape` is nonempty here (the assert in numpy_op_indices): the
        -- reshaping branch, which also (re)binds the `reshape` lambda
        .ok (.reshaped indices, arg_coefs, V)
      | .ok (.inr indices) =>
        -- `shape` is empty here: the direct branch
        .ok (.direct indices, arg_coefs, V)

/-- The argument loop of `numpy_reshaped` (lines 118-137): one generator
per operand, processed in order, threading the loop variables; the state
returned is their final binding, against which all generator bodies will
be evaluated. -/
def arg_loop (σ : Store) : List Value → LoopState →
    Except Err (List GetStream × LoopState)
  | [], st => .ok ([], st)
  | a :: rest, st =>
    match arg_step σ a with
    | .error e => .error e
    | .ok gcv =>
      let st2 : LoopState :=
        match gcv.1 with
        | .reshaped _ => ⟨some gcv.2.1, some gcv.2.2, some gcv.2.2.ufl_element.value_shape⟩
        | .direct _ => ⟨some gcv.2.1, some gcv.2.2, st.reshape_shape⟩
      match arg_loop σ rest st2 with
      | .error e => .error e
      | .ok rs => .ok (gcv.1 :: rs.1, rs.2)

/-- Consuming one operand's generator: each element evaluates the genexp
body with `arg_coefs` and `reshape` resolved against the loop's final
state (Python late binding) — so every operand's values are read from the
*last* operand's coefficient array and reshaped to the *last-created*
reshape lambda's frozen shape; only the index iterator is the operand's
own.  Elements stay `Except` values: they, and their failures, materialise
only when the assembly loop consumes them. -/
def stream_values (st : LoopState) : GetStream → List (Except Err NpVal)
  | .reshaped indices =>
    indices.map (fun index =>
      match st.arg_coefs, st.reshape_shape with
      | some coefs, some s => (npIndexList coefs index).bind (npReshape s)
      | _, _ => .error .TypeError)
  | .direct indices =>
    indices.map (fun i =>
      match st.arg_coefs with
      | some coefs => npIndexOne coefs i
      | none => .error .TypeError)

/-- Write one entry of the result coefficient array. -/
def setAt (coefs : List ℚ) (i : Nat) (x : ℚ) : Except Err (List ℚ) :=
  if i < coefs.length then .ok (coefs.set i x) else .error .IndexError

/-- Write a list of (index, value) pairs in order. -/
def setMany : List ℚ → List (Nat × ℚ) → Except Err (List ℚ)
  | cs, [] => .ok cs
  | cs, (i, x) :: rest =>
    match setAt cs i x with
    | .error e => .error e
    | .ok cs2 => setMany cs2 rest

/-- numpy scatter-assignment `coefs[dof] = vals` for a list of indices:
lengths must agree, except that a length-1 value broadcasts. -/
def scatter (coefs : List ℚ) (dof : List Nat) (vals : List ℚ) : Except Err (List ℚ) :=
  if vals.length = dof.length then setMany coefs (dof.zip vals)
  else if vals.length = 1 then setMany coefs (dof.map (fun i => (i, vals.getD 0 0)))
  else .error .NumericError

/-- The assembly loop (lines 152-155) for a tensor-shaped result: for each
dof, force that dof's logical operand values, apply the kernel, flatten
and scatter into the result array at the dof's index list. -/
def fill_tensor (op : Kernel) :
    List (List Nat × List (Except Err NpVal)) → List ℚ → Except Err (List ℚ)
  | [], cs => .ok cs
  | (dof, tup) :: rest, cs =>
    match mapE (fun x => x) tup with
    | .error e => .error e
    | .ok dof_args =>
      match op dof_args with
      | .error e => .error e
      | .ok r =>
        match scatter cs dof (npFlatten r) with
        | .error e => .error e
        | .ok cs2 => fill_tensor op rest cs2

/-- The assembly loop for a scalar result: the kernel's per-dof value is
assigned to the dof's single index (a non-scalar there is a numpy shape
error). -/
def fill_scalar (op : Kernel) :
    List (Nat × List (Except Err NpVal)) → List ℚ → Except Err (List ℚ)
  | [], cs => .ok cs
  | (i, tup) :: rest, cs =>
    match mapE (fun x => x) tup with
    | .error e => .error e
    | .ok dof_args =>
      match op dof_args with
      | .error e => .error e
      | .ok r =>
        match r with
        | .scalar x =>
          match setAt cs i x with
          | .error e => .error e
          | .ok cs2 => fill_scalar op rest cs2
        | _ => .error .NumericError

/-- `numpy_reshaped(expr, op)` (lines 112-157) after its operands have been
evaluated (the `map(Eval, expr.ufl_operands)` of line 114 happens at the
call site inside `Eval`): determine the common scalar sub-element of the
operands' spaces, run the argument loop building one generator per operand
(whose bodies late-bind `arg_coefs`/`reshape` to the loop's final state),
zip the consumed streams dof-by-dof, construct the result space from the
node's declared shape over the mesh of the *last* operand's space (the
leaked loop variable `V`), and assemble the result coefficients into a
newly created `Function`. -/
def numpy_reshaped (op : Kernel) (shape_res : List Nat) (args : List Value)
    (σ : Store) : Except Err (Value × Store) :=
  match mapE (fun arg => space_of σ [arg]) args with
  | .error e => .error e
  | .ok spaces =>
    match common_sub_element spaces with
    | .error e => .error e
    | .ok sub_elm =>
      match arg_loop σ args ⟨none, none, none⟩ with
      | .error e => .error e
      | .ok gets =>
        let zipped := izipN (gets.1.map (stream_values gets.2))
        match gets.2.V with
        | none => .error .TypeError   -- no operands: `V` is unbound (NameError)
        | some V =>
          match make_space sub_elm shape_res V.mesh with
          | .error e => .error e
          | .ok V_res =>
            let zero : List ℚ := List.replicate V_res.dim 0
            match numpy_op_indices V_res shape_res with
            | .error e => .error e
            | .ok (.inl dofs) =>
              match fill_tensor op (dofs.zip zipped) zero with
              | .error e => .error e
              | .ok coefs_res => make_function V_res (.vec coefs_res) σ
            | .ok (.inr dofs) =>
              match fill_scalar op (dofs.zip zipped) zero with
              | .error e => .error e
              | .ok coefs_res => make_function V_res (.vec coefs_res) σ

/-! ### The expression evaluator (`Eval`, lines 44-73) -/

mutual
/-- A symbolic expression node, as the specification's data model has it: a
terminal (`Function` reference or plain number), a symbolic scalar-constant
wrapper (`ScalarValue`/`IntValue`), or an operator application carrying its
kind, ordered operand list and declared result shape (`ufl_shape`). -/
inductive Expr where
  | fn_term (ref : Nat)
  | num_term (x : ℚ)
  | scalar_value (x : ℚ)
  | node (kind : OpKind) (operands : ExprList) (shape : List Nat)

/-- An ordered list of operand nodes. -/
inductive ExprList where
  | nil
  | cons (e : Expr) (es : ExprList)
end

mutual
/-- `Eval(expr)` (lines 44-73): terminals return unchanged; scalar-constant
wrappers unwrap; an operator kind found in `DIFFERENT_SPACE_RULES`
delegates to `numpy_reshaped` on its evaluated operands; otherwise the
operands are evaluated, the kind looked up in `SAME_SPACE_RULES` (a miss
is the `KeyError` the specification calls `UnsupportedOperatorError`), the
kernel applied to the operands' coefficient arrays, and the result packed
into a new `Function` in the operands' shared space — note the kernel
runs *before* `space_of` checks consistency. -/
def Eval (lib : NumpyLib) (e : Expr) (σ : Store) : Except Err (Value × Store) :=
  match e with
  | .fn_term r => .ok (.fn r, σ)
  | .num_term x => .ok (.num x, σ)
  | .scalar_value x => .ok (.num x, σ)
  | .node kind ops shape =>
    match DIFFERENT_SPACE_RULES lib kind with
    | some op =>
      (evalArgs lib ops σ).bind (fun as => numpy_reshaped op shape as.1 as.2)
    | none =>
      (evalArgs lib ops σ).bind (fun as =>
        match SAME_SPACE_RULES lib kind with
        | none => .error .UnsupportedOperatorError
        | some op =>
          (mapE (coefs_of as.2) as.1).bind (fun coefs =>
            (op coefs).bind (fun V_coefs =>
              (space_of as.2 as.1).bind (fun V =>
                make_function V V_coefs as.2))))
termination_by structural e

/-- `map(Eval, expr.ufl_operands)`: evaluate the operands left to right,
threading the store. -/
def evalArgs (lib : NumpyLib) (es : ExprList) (σ : Store) :
    Except Err (List Value × Store) :=
  match es with
  | .nil => .ok ([], σ)
  | .cons e rest =>
    (Eval lib e σ).bind (fun vs =>
      (evalArgs lib rest vs.2).bind (fun rests =>
        .ok (vs.1 :: rests.1, rests.2)))
termination_by structural es
end

/-! ### Concrete fixtures used by witnesses and counterexamples -/

/-- A concrete instance of the external numeric library, used to instantiate
the universally quantified `NumpyLib` in witnesses. -/
def exLib : NumpyLib where
  sin := fun _ => 0
  cos := fun _ => 0
  sqrt := fun _ => 0
  exp := fun _ => 0
  log := fun _ => 0
  tan := fun _ => 0
  sinh := fun _ => 0
  cosh := fun _ => 0
  tanh := fun _ => 0
  arcsin := fun _ => 0
  arccos := fun _ => 0
  arctan := fun _ => 0
  arctan2 := fun _ _ => 0
  power := fun _ _ => 0
  inv := fun _ => .error .NumericError
  det := fun _ => .error .NumericError
  cross := fun _ _ => .error .NumericError
  inner := fun _ _ => .error .NumericError

/-- A mesh with identity 0 and one scalar dof. -/
def meshA : Mesh := ⟨0, 1⟩

/-- A mesh with identity 1 and one scalar dof. -/
def meshB : Mesh := ⟨1, 1⟩

/-- A scalar continuous-Galerkin degree-1 element. -/
def elmCG1 : UflElement := .finite "CG" 1

/-- The 2-component vector element over `elmCG1`. -/
def vecCG1 : UflElement := .VectorElement elmCG1 2

/-- A vector function on `meshA` with coefficients `[1, 2]`. -/
def uOnA : Function := ⟨⟨vecCG1, meshA⟩, [1, 2]⟩

/-- A vector function on `meshB` (same element, different mesh identity)
with coefficients `[3, 4]`. -/
def vOnB : Function := ⟨⟨vecCG1, meshB⟩, [3, 4]⟩

/-- The expression `dot(f0, f1)` over the first two store entries, with its
UFL result shape (scalar). -/
def dotExpr : Expr := .node .Dot (.cons (.fn_term 0) (.cons (.fn_term 1) .nil)) []

/-! ### C6 — identity on terminals -/

/-- C6: evaluating a terminal — a stored `Function` or a plain number —
returns it unchanged: the same reference for a `Function` (no copy, no new
allocation) and an unchanged store (no side effect), for every library
instantiation, reference, number and store. -/
theorem eval_terminal_identity (lib : NumpyLib) (r : Nat) (x : ℚ) (σ : Store) :
    Eval lib (.fn_term r) σ = .ok (.fn r, σ) ∧
    Eval lib (.num_term x) σ = .ok (.num x, σ) :=
  ⟨rfl, rfl⟩

/-! ### C2 — unknown operator kinds are rejected -/

/-- C2: an operator node whose kind is in neither kernel table evaluates to
`UnsupportedOperatorError` (provided its operands themselves evaluate; the
source looks the kind up only after evaluating them). -/
theorem unknown_operator_rejected (lib : NumpyLib) (kind : OpKind)
    (ops : ExprList) (shape : List Nat) (σ : Store) (vs : List Value) (σ1 : Store)
    (hds : DIFFERENT_SPACE_RULES lib kind = none)
    (hss : SAME_SPACE_RULES lib kind = none)
    (hargs : evalArgs lib ops σ = .ok (vs, σ1)) :
    Eval lib (.node kind ops shape) σ = .error .UnsupportedOperatorError := by
  simp [Eval, hds, hss, hargs, Except.bind]

/-- Witness for C2 at the `Indexed` kind (the one the source marks FIXME),
with no operands and an empty store. -/
theorem unknown_operator_rejected_witness :
    Eval exLib (.node .Indexed .nil []) [] = .error .UnsupportedOperatorError :=
  unknown_operator_rejected exLib .Indexed .nil [] [] [] [] rfl rfl rfl

/-! ### C5 — rank ≥ 3 rejected -/

/-- C5: constructing the result space for a declared shape of rank 3 or
higher fails with `UnsupportedRankError`, whatever the sub-element and
mesh. -/
theorem rank_three_rejected (V : UflElement) (shape : List Nat) (mesh : Mesh)
    (h : 3 ≤ shape.length) :
    make_space V shape mesh = .error .UnsupportedRankError := by
  rcases shape with _ | ⟨a, _ | ⟨b, _ | ⟨c, t⟩⟩⟩
  · simp at h
  · simp at h
  · simp at h
  · simp [make_space]

/-- Witness for C5 at the concrete shape `(2, 2, 2)`. -/
theorem rank_three_rejected_witness :
    3 ≤ ([2, 2, 2] : List Nat).length ∧
      make_space elmCG1 [2, 2, 2] meshA = .error .UnsupportedRankError :=
  ⟨by decide, rank_three_rejected elmCG1 [2, 2, 2] meshA (by decide)⟩

/-! ### C1 — sub-space count of a shaped result space -/

/-- C1 (code bug): at the declared result shape `(3,)` the source builds
`VectorElement(V, len(shape))` — it passes the shape's *rank*, 1, where the
vector dimension belongs — so the produced space decomposes into 1
sub-space, not the flattened product 3 the claim (and the `make_space`
docstring, 'Tensor product space of right shape') require. -/
theorem make_space_rank_for_dim_bug :
    make_space elmCG1 [3] meshA = .ok ⟨.VectorElement elmCG1 1, meshA⟩ ∧
      FunctionSpace.num_sub_spaces ⟨.VectorElement elmCG1 1, meshA⟩ = 1 ∧
      (1 : Nat) ≠ 3 := by
  refine ⟨rfl, rfl, by decide⟩

/-! ### C3 — incompatible spaces under a same-space operator -/

/-- C3 (counterexample): two CG1 functions on meshes with different
identities and different dof counts; the claim says `Sum` over them fails
with `InconsistentSpaceError`, but the numeric kernel — applied before
`space_of` — fails first on the incompatible array lengths, so evaluation
fails with the numeric broadcast error instead. -/
theorem same_space_mismatch_numeric_first :
    Eval exLib (.node .Sum (.cons (.fn_term 0) (.cons (.fn_term 1) .nil)) [])
        [⟨⟨elmCG1, ⟨0, 2⟩⟩, [0, 0]⟩, ⟨⟨elmCG1, ⟨1, 3⟩⟩, [0, 0, 0]⟩] =
      .error .NumericError ∧ Err.NumericError ≠ Err.InconsistentSpaceError := by
  exact ⟨by with_unfolding_all rfl, by decide⟩

/-! ### C4 — different meshes under a different-space operator -/

/-- C4 (counterexample): `dot` of two vector functions with the same scalar
sub-element but different mesh identities.  The claim says this fails
immediately and never returns a Function on one operand's mesh; in fact the
common-sub-element check passes (it never looks at meshes) and evaluation
returns a new Function built on the *second* operand's mesh.  (Its value is
`np.dot([3,4],[3,4]) = 25`, both kernel arguments being read from the last
operand's coefficient array by the late-binding generator bodies.) -/
theorem different_mesh_accepted :
    Eval exLib dotExpr [uOnA, vOnB] =
      .ok (.fn 2, [uOnA, vOnB, ⟨⟨elmCG1, meshB⟩, [25]⟩]) ∧
      meshB.ident ≠ meshA.ident :=
  ⟨by with_unfolding_all rfl, by decide⟩

/-- The per-space step of the common-sub-element check reads only the
element. -/
theorem sub_element_of_congr (V W : FunctionSpace)
    (h : V.ufl_element = W.ufl_element) : sub_element_of V = sub_element_of W := by
  simp [sub_element_of, FunctionSpace.num_sub_spaces, h]

/-- The common-sub-element fold reads only the elements of the spaces. -/
theorem common_go_congr (s : List FunctionSpace) :
    ∀ (s2 : List FunctionSpace) (acc : Option UflElement),
      s.map FunctionSpace.ufl_element = s2.map FunctionSpace.ufl_element →
      common_go s acc = common_go s2 acc := by
  induction s with
  | nil =>
    intro s2 acc h
    have : s2 = [] := by
      cases s2 with
      | nil => rfl
      | cons b t => simp at h
    subst this; rfl
  | cons a rest ih =>
    intro s2 acc h
    cases s2 with
    | nil => simp at h
    | cons b t =>
      simp only [List.map_cons, List.cons.injEq] at h
      obtain ⟨hab, hrest⟩ := h
      simp only [common_go]
      rw [sub_element_of_congr a b hab]
      cases sub_element_of b with
      | error e => rfl
      | ok V2 =>
        cases acc with
        | none => exact ih t (some V2) hrest
        | some V =>
          by_cases hV : V = V2
          · simp only [hV, if_pos rfl]
            exact ih t (some V2) hrest
          · simp [hV]

/-- C4 (amended): the common-sub-element check compares only the operands'
(sub-)elements — it is entirely independent of the spaces' meshes, so
operands on meshes with different identities are not rejected there. -/
theorem common_sub_element_ignores_mesh (spaces spaces2 : List FunctionSpace)
    (h : spaces.map FunctionSpace.ufl_element = spaces2.map FunctionSpace.ufl_element) :
    common_sub_element spaces = common_sub_element spaces2 :=
  common_go_congr spaces spaces2 none h

/-- Witness for the amended C4: the same element list over different meshes
gives the same common sub-element as over one mesh. -/
theorem common_sub_element_ignores_mesh_witness :
    [(⟨vecCG1, meshA⟩ : FunctionSpace), ⟨vecCG1, meshB⟩].map FunctionSpace.ufl_element =
      [(⟨vecCG1, meshA⟩ : FunctionSpace), ⟨vecCG1, meshA⟩].map FunctionSpace.ufl_element ∧
    common_sub_element [⟨vecCG1, meshA⟩, ⟨vecCG1, meshB⟩] =
      common_sub_element [⟨vecCG1, meshA⟩, ⟨vecCG1, meshA⟩] :=
  ⟨rfl, common_sub_element_ignores_mesh _ _ rfl⟩

/-! ### C10 — numeric operands under a different-space operator -/

/-- If every element maps to `ok` or to the `TypeError` failure and at least
one fails, the error-propagating map fails with `TypeError`. -/
theorem mapE_all_te (f : α → Except Err β) :
    ∀ (l : List α), (∀ a ∈ l, f a = .error .TypeError ∨ ∃ b, f a = .ok b) →
      (∃ a ∈ l, f a = .error .TypeError) → mapE f l = .error .TypeError := by
  intro l
  induction l with
  | nil => simp
  | cons a rest ih =>
    intro hall hex
    rcases hall a (by simp) with ha | ⟨b, hb⟩
    · simp [mapE, ha]
    · have hrest : mapE f rest = .error .TypeError := by
        apply ih
        · intro c hc; exact hall c (by simp [hc])
        · rcases hex with ⟨c, hc, hce⟩
          rcases List.mem_cons.mp hc with hca | hcr
          · subst hca; rw [hb] at hce; cases hce
          · exact ⟨c, hcr, hce⟩
      simp [mapE, hb, hrest]

/-- C10: a different-space operator node one of whose operands evaluates to
a plain number fails (the space query `space_of((arg,))` cannot produce a
space from a number) instead of broadcasting the scalar — for any kernel,
shape and store, provided the operand list itself evaluates and the
`Function` operands are live references. -/
theorem numeric_operand_rejected (lib : NumpyLib) (kind : OpKind) (op : Kernel)
    (ops : ExprList) (shape : List Nat) (σ : Store) (vs : List Value) (σ1 : Store) (x : ℚ)
    (hds : DIFFERENT_SPACE_RULES lib kind = some op)
    (hargs : evalArgs lib ops σ = .ok (vs, σ1))
    (hmem : Value.num x ∈ vs)
    (hres : ∀ r, Value.fn r ∈ vs → ∃ f, σ1[r]? = some f) :
    Eval lib (.node kind ops shape) σ = .error .TypeError := by
  have h1 : mapE (fun arg => space_of σ1 [arg]) vs = .error .TypeError := by
    apply mapE_all_te
    · intro a ha
      cases a with
      | num y => left; rfl
      | fn r =>
        right
        rcases hres r ha with ⟨f, hf⟩
        exact ⟨⟨f.function_space.ufl_element, f.function_space.mesh⟩,
          by simp [space_of, space_of_go, hf]⟩
    · exact ⟨.num x, hmem, rfl⟩
  simp [Eval, hds, hargs, Except.bind, numpy_reshaped, h1]

/-- Witness for C10: transpose applied to the bare number 2. -/
theorem numeric_operand_rejected_witness :
    Eval exLib (.node .Transposed (.cons (.num_term 2) .nil) []) [] =
      .error .TypeError :=
  numeric_operand_rejected exLib .Transposed (k1 npT) (.cons (.num_term 2) .nil)
    [] [] [.num 2] [] 2 rfl rfl (by simp) (fun r hr => by simp at hr)

/-! ### C3 (amended) — same-space operator over genuinely different spaces -/

/-- The same-space operator kinds whose kernels are binary ufuncs — the
kinds a well-formed two-operand UFL node can carry. -/
def ssBinaryKinds : List OpKind := [.Sum, .Division, .Product, .Power, .Atan2]

/-- Evaluation of a binary same-space node over two stored functions whose
coefficient arrays have equal length but whose spaces disagree in element
or mesh identity: the kernel application succeeds, and `space_of` then
fails on the second function with `InconsistentSpaceError`. -/
theorem eval_binary_ss_mismatch (lib : NumpyLib) (kind : OpKind) (f : ℚ → ℚ → ℚ)
    (u v : Nat) (σ : Store) (fu fv : Function) (shape : List Nat)
    (hds : DIFFERENT_SPACE_RULES lib kind = none)
    (hss : SAME_SPACE_RULES lib kind = some (ufunc2 f))
    (hu : σ[u]? = some fu) (hv : σ[v]? = some fv)
    (hdiff : fu.function_space.ufl_element ≠ fv.function_space.ufl_element ∨
      fu.function_space.mesh.ident ≠ fv.function_space.mesh.ident)
    (hlen : fu.coefs.length = fv.coefs.length) :
    Eval lib (.node kind (.cons (.fn_term u) (.cons (.fn_term v) .nil)) shape) σ =
      .error .InconsistentSpaceError := by
  have hargs : evalArgs lib (.cons (.fn_term u) (.cons (.fn_term v) .nil)) σ =
      .ok ([.fn u, .fn v], σ) := rfl
  have hcoefs : mapE (coefs_of σ) [.fn u, .fn v] =
      .ok [.vec fu.coefs, .vec fv.coefs] := by
    simp [mapE, coefs_of, hu, hv]
  have hop : ufunc2 f [.vec fu.coefs, .vec fv.coefs] =
      .ok (.vec (List.zipWith f fu.coefs fv.coefs)) := by
    simp [ufunc2, k2E, broadcast2, hlen]
  have hsp : space_of σ [.fn u, .fn v] = .error .InconsistentSpaceError := by
    have hcond : ¬(fv.function_space.ufl_element = fu.function_space.ufl_element ∧
        fu.function_space.mesh.ident = fv.function_space.mesh.ident) := by
      rcases hdiff with h | h
      · exact fun hc => h (hc.1.symm)
      · exact fun hc => h hc.2
    simp [space_of, space_of_go, hu, hv, hcond]
  simp [Eval, hds, hss, hargs, hcoefs, hop, hsp, Except.bind]

/-- C3 (amended): for every binary same-space operator kind, a node over two
stored `Function` operands whose spaces differ in element or in mesh
identity — but whose coefficient arrays have equal length, so that the
numeric kernel (which the source applies *before* space resolution) does
not fail first — evaluates to `InconsistentSpaceError`. -/
theorem same_space_mismatch_inconsistent (lib : NumpyLib) (kind : OpKind)
    (u v : Nat) (σ : Store) (fu fv : Function) (shape : List Nat)
    (hk : kind ∈ ssBinaryKinds)
    (hu : σ[u]? = some fu) (hv : σ[v]? = some fv)
    (hdiff : fu.function_space.ufl_element ≠ fv.function_space.ufl_element ∨
      fu.function_space.mesh.ident ≠ fv.function_space.mesh.ident)
    (hlen : fu.coefs.length = fv.coefs.length) :
    Eval lib (.node kind (.cons (.fn_term u) (.cons (.fn_term v) .nil)) shape) σ =
      .error .InconsistentSpaceError := by
  simp only [ssBinaryKinds, List.mem_cons, List.mem_singleton] at hk
  rcases hk with rfl | rfl | rfl | rfl | (rfl | h)
  · exact eval_binary_ss_mismatch lib _ _ u v σ fu fv shape rfl rfl hu hv hdiff hlen
  · exact eval_binary_ss_mismatch lib _ _ u v σ fu fv shape rfl rfl hu hv hdiff hlen
  · exact eval_binary_ss_mismatch lib _ _ u v σ fu fv shape rfl rfl hu hv hdiff hlen
  · exact eval_binary_ss_mismatch lib _ _ u v σ fu fv shape rfl rfl hu hv hdiff hlen
  · exact eval_binary_ss_mismatch lib _ _ u v σ fu fv shape rfl rfl hu hv hdiff hlen
  · cases h

/-- Witness for the amended C3: `Sum` of two CG1 functions with one dof
each, on meshes with identities 0 and 1. -/
theorem same_space_mismatch_inconsistent_witness :
    Eval exLib (.node .Sum (.cons (.fn_term 0) (.cons (.fn_term 1) .nil)) [])
        [⟨⟨elmCG1, meshA⟩, [0]⟩, ⟨⟨elmCG1, meshB⟩, [0]⟩] =
      .error .InconsistentSpaceError :=
  same_space_mismatch_inconsistent exLib .Sum 0 1
    [⟨⟨elmCG1, meshA⟩, [0]⟩, ⟨⟨elmCG1, meshB⟩, [0]⟩]
    ⟨⟨elmCG1, meshA⟩, [0]⟩ ⟨⟨elmCG1, meshB⟩, [0]⟩ []
    (by decide) rfl rfl (Or.inr (by decide)) rfl

/-! ### C9 — per-dof logical values fed to the kernel -/

/-- C9 (code bug): the per-operand logical values the claim (and the
specification's step 3 of 4.3) describes are not what the code feeds the
kernel.  Only the dof index iterator of each generator is bound eagerly;
the generator bodies resolve `arg_coefs` and `reshape` when consumed,
after the argument loop, so every operand's stream reads the *last*
operand's coefficient array.  At `dot(u, v)` with `u = [1,2]`,
`v = [3,4]`: the loop's eager data gives both operands their own index
tuples `[0,1]`, but its final state binds `arg_coefs` to `v`'s array, so
the dof-0 logical value of operand `u` fed to the kernel is
`reshape(v_coefs[[0,1]]) = [3,4]` — while the claim's prescribed value,
the reshape of `u`'s own coefficients at `u`'s index tuple, is `[1,2]`.
(For the last operand — hence for every operand of a unary
different-space operator, the only ones the repository exercises — the
two coincide.) -/
theorem logical_value_late_binding_bug :
    arg_loop [uOnA, vOnB] [.fn 0, .fn 1] ⟨none, none, none⟩ =
      .ok ([.reshaped [[0, 1]], .reshaped [[0, 1]]],
        ⟨some (.vec [3, 4]), some ⟨vecCG1, meshB⟩, some [2]⟩) ∧
    (stream_values ⟨some (.vec [3, 4]), some ⟨vecCG1, meshB⟩, some [2]⟩
        (.reshaped [[0, 1]]))[0]? = some (.ok (.vec [3, 4])) ∧
    npReshape (UflElement.value_shape vecCG1)
        ((List.range (FunctionSpace.num_sub_spaces ⟨vecCG1, meshA⟩)).map
          (fun comp => uOnA.coefs.getD ((FunctionSpace.sub_dofs ⟨vecCG1, meshA⟩ comp).getD 0 0) 0)) =
      .ok (.vec [1, 2]) ∧
    (Except.ok (NpVal.vec [3, 4]) : Except Err NpVal) ≠ .ok (.vec [1, 2]) :=
  ⟨by with_unfolding_all rfl, by with_unfolding_all rfl,
    by with_unfolding_all rfl, by norm_num⟩

/-! ### C7 — linearity on a shared space -/

/-- Evaluating the UFL product `a * u` of a scalar constant and a stored
function: the scalar broadcasts over the coefficient array and one new
function is allocated in `u`'s space. -/
theorem eval_scalar_times_fn (lib : NumpyLib) (a : ℚ) (u : Nat) (σ : Store)
    (fu : Function) (hu : σ[u]? = some fu)
    (hlen : fu.coefs.length = fu.function_space.dim) :
    Eval lib (.node .Product (.cons (.scalar_value a) (.cons (.fn_term u) .nil)) []) σ =
      .ok (.fn σ.length, σ ++ [⟨fu.function_space, fu.coefs.map (fun x => a * x)⟩]) := by
  have hargs : evalArgs lib (.cons (.scalar_value a) (.cons (.fn_term u) .nil)) σ =
      .ok ([.num a, .fn u], σ) := rfl
  have hcoefs : mapE (coefs_of σ) [.num a, .fn u] =
      .ok [.scalar a, .vec fu.coefs] := by
    simp [mapE, coefs_of, hu]
  have hop : ufunc2 (fun x y => x * y) [.scalar a, .vec fu.coefs] =
      .ok (.vec (fu.coefs.map (fun x => a * x))) := by
    simp [ufunc2, k2E, broadcast2]
  have hsp : space_of σ [.num a, .fn u] = .ok fu.function_space := by
    simp [space_of, space_of_go, hu]
  have hmk : make_function fu.function_space (.vec (fu.coefs.map (fun x => a * x))) σ =
      .ok (.fn σ.length, σ ++ [⟨fu.function_space, fu.coefs.map (fun x => a * x)⟩]) := by
    simp [make_function, hlen]
  simp [Eval, DIFFERENT_SPACE_RULES, SAME_SPACE_RULES, hargs, hcoefs, hop, hsp, hmk,
    Except.bind]

/-- C7: for stored functions `u, v` in the same space (with well-formed
coefficient arrays) and scalars `a, b`, evaluating `a*u + b*v` — the UFL
tree `Sum(Product(a, u), Product(b, v))` — allocates the two intermediate
products and then a result whose coefficient array is elementwise
`a*coefs(u) + b*coefs(v)` and whose space is the shared space. -/
theorem eval_linearity (lib : NumpyLib) (a b : ℚ) (u v : Nat) (σ : Store)
    (fu fv : Function) (hu : σ[u]? = some fu) (hv : σ[v]? = some fv)
    (hfs : fu.function_space = fv.function_space)
    (hul : fu.coefs.length = fu.function_space.dim)
    (hvl : fv.coefs.length = fv.function_space.dim) :
    Eval lib (.node .Sum (.cons
        (.node .Product (.cons (.scalar_value a) (.cons (.fn_term u) .nil)) [])
        (.cons (.node .Product (.cons (.scalar_value b) (.cons (.fn_term v) .nil)) [])
          .nil)) []) σ =
      .ok (.fn (σ.length + 2),
        σ ++ [⟨fu.function_space, fu.coefs.map (fun x => a * x)⟩,
          ⟨fv.function_space, fv.coefs.map (fun x => b * x)⟩,
          ⟨fu.function_space, List.zipWith (fun x y => a * x + b * y) fu.coefs fv.coefs⟩]) := by
  have hult : u < σ.length := by
    by_contra hlt
    rw [List.getElem?_eq_none (by omega)] at hu
    cases hu
  set w1 : Function := ⟨fu.function_space, fu.coefs.map (fun x => a * x)⟩ with hw1
  set w2 : Function := ⟨fv.function_space, fv.coefs.map (fun x => b * x)⟩ with hw2
  have h1 : Eval lib (.node .Product (.cons (.scalar_value a) (.cons (.fn_term u) .nil)) []) σ =
      .ok (.fn σ.length, σ ++ [w1]) := eval_scalar_times_fn lib a u σ fu hu hul
  have hv1 : (σ ++ [w1])[v]? = some fv := by
    have hvlt : v < σ.length := by
      by_contra hlt
      rw [List.getElem?_eq_none (by omega)] at hv
      cases hv
    rw [List.getElem?_append_left hvlt]
    exact hv
  have h2 : Eval lib (.node .Product (.cons (.scalar_value b) (.cons (.fn_term v) .nil)) [])
      (σ ++ [w1]) = .ok (.fn (σ.length + 1), σ ++ [w1, w2]) := by
    have := eval_scalar_times_fn lib b v (σ ++ [w1]) fv hv1 hvl
    simpa using this
  have hargs : evalArgs lib (.cons
      (.node .Product (.cons (.scalar_value a) (.cons (.fn_term u) .nil)) [])
      (.cons (.node .Product (.cons (.scalar_value b) (.cons (.fn_term v) .nil)) [])
        .nil)) σ = .ok ([.fn σ.length, .fn (σ.length + 1)], σ ++ [w1, w2]) := by
    simp [evalArgs, h1, h2, Except.bind]
  have hl1 : (σ ++ [w1, w2])[σ.length]? = some w1 := by
    have : σ ++ [w1, w2] = (σ ++ [w1]) ++ [w2] := by simp
    rw [this, List.getElem?_append_left (by simp), List.getElem?_concat_length]
  have hl2 : (σ ++ [w1, w2])[σ.length + 1]? = some w2 := by
    have : σ ++ [w1, w2] = (σ ++ [w1]) ++ [w2] := by simp
    have hlen1 : (σ ++ [w1]).length = σ.length + 1 := by simp
    rw [this, ← hlen1, List.getElem?_concat_length]
  have hcoefs : mapE (coefs_of (σ ++ [w1, w2])) [.fn σ.length, .fn (σ.length + 1)] =
      .ok [.vec w1.coefs, .vec w2.coefs] := by
    simp [mapE, coefs_of, hl1, hl2]
  have hweq : w1.coefs.length = w2.coefs.length := by
    simp [hw1, hw2, hul, hvl, hfs]
  have hop : ufunc2 (fun x y => x + y) [.vec w1.coefs, .vec w2.coefs] =
      .ok (.vec (List.zipWith (fun x y => a * x + b * y) fu.coefs fv.coefs)) := by
    show broadcast2 (fun x y => x + y) (.vec w1.coefs) (.vec w2.coefs) = _
    simp only [broadcast2]
    rw [if_pos hweq]
    simp only [hw1, hw2, List.zipWith_map]
  have hsp : space_of (σ ++ [w1, w2]) [.fn σ.length, .fn (σ.length + 1)] =
      .ok fu.function_space := by
    have hcond : fv.function_space.ufl_element = fu.function_space.ufl_element ∧
        fu.function_space.mesh.ident = fv.function_space.mesh.ident :=
      ⟨by rw [hfs], by rw [hfs]⟩
    simp [space_of, space_of_go, hl1, hl2, hcond]
  have hzl : (List.zipWith (fun x y => a * x + b * y) fu.coefs fv.coefs).length =
      fu.function_space.dim := by
    rw [List.length_zipWith, hul, hvl, hfs, min_self]
  have hmk : make_function fu.function_space
      (.vec (List.zipWith (fun x y => a * x + b * y) fu.coefs fv.coefs)) (σ ++ [w1, w2]) =
      .ok (.fn (σ.length + 2),
        σ ++ [w1, w2, ⟨fu.function_space,
          List.zipWith (fun x y => a * x + b * y) fu.coefs fv.coefs⟩]) := by
    simp [make_function, hzl]
  simp [Eval, DIFFERENT_SPACE_RULES, SAME_SPACE_RULES, hargs, hcoefs, hop, hsp, hmk,
    Except.bind]

/-- Witness for C7: `2*u + 3*w` for two one-dof functions in the same
space. -/
theorem eval_linearity_witness :
    Eval exLib (.node .Sum (.cons
        (.node .Product (.cons (.scalar_value 2) (.cons (.fn_term 0) .nil)) [])
        (.cons (.node .Product (.cons (.scalar_value 3) (.cons (.fn_term 1) .nil)) [])
          .nil)) []) [⟨⟨elmCG1, meshA⟩, [5]⟩, ⟨⟨elmCG1, meshA⟩, [7]⟩] =
      .ok (.fn 4,
        [⟨⟨elmCG1, meshA⟩, [5]⟩, ⟨⟨elmCG1, meshA⟩, [7]⟩] ++
          [⟨⟨elmCG1, meshA⟩, [5].map (fun x => 2 * x)⟩,
            ⟨⟨elmCG1, meshA⟩, [7].map (fun x => 3 * x)⟩,
            ⟨⟨elmCG1, meshA⟩, List.zipWith (fun x y => 2 * x + 3 * y) [5] [7]⟩]) :=
  eval_linearity exLib 2 3 0 1 [⟨⟨elmCG1, meshA⟩, [5]⟩, ⟨⟨elmCG1, meshA⟩, [7]⟩]
    ⟨⟨elmCG1, meshA⟩, [5]⟩ ⟨⟨elmCG1, meshA⟩, [7]⟩ rfl rfl rfl
    (by with_unfolding_all rfl) (by with_unfolding_all rfl)

/-! ### C8 — the interpreter never touches existing Functions -/

/-- Store extension is transitive (stated via `take`). -/
theorem store_extends_trans {σ σ1 σ2 : Store} (h1 : σ1.take σ.length = σ)
    (h2 : σ2.take σ1.length = σ1) : σ2.take σ.length = σ := by
  have hle : σ.length ≤ σ1.length := by
    have hl := congrArg List.length h1
    simp only [List.length_take] at hl
    omega
  calc σ2.take σ.length = (σ2.take σ1.length).take σ.length := by
        rw [List.take_take, Nat.min_eq_left hle]
    _ = σ1.take σ.length := by rw [h2]
    _ = σ := h1

/-- `make_function` only appends to the store. -/
theorem make_function_frame (V : FunctionSpace) (c : NpVal) (σ : Store)
    (v : Value) (σ2 : Store) (h : make_function V c σ = .ok (v, σ2)) :
    σ2.take σ.length = σ := by
  rcases c with x | xs | rows <;> simp only [make_function] at h
  · exact Except.noConfusion h
  · split at h
    · simp only [Except.ok.injEq, Prod.mk.injEq] at h
      rw [← h.2]
      exact List.take_left σ _
    · exact Except.noConfusion h
  · exact Except.noConfusion h

/-- `numpy_reshaped` only appends to the store: every store change it makes
goes through its final `make_function`. -/
theorem numpy_reshaped_frame (op : Kernel) (shape : List Nat) (args : List Value)
    (σ : Store) (v : Value) (σ2 : Store)
    (h : numpy_reshaped op shape args σ = .ok (v, σ2)) :
    σ2.take σ.length = σ := by
  simp only [numpy_reshaped] at h
  repeat' split at h
  all_goals
    first
      | exact Except.noConfusion h
      | exact make_function_frame _ _ _ _ _ h

mutual
/-- Frame property of `Eval`: a successful evaluation leaves every Function
already in the store untouched — the result store extends the input one. -/
theorem eval_frame_go (lib : NumpyLib) (e : Expr) :
    ∀ (σ : Store) (v : Value) (σ2 : Store),
      Eval lib e σ = .ok (v, σ2) → σ2.take σ.length = σ := by
  cases e with
  | fn_term r =>
    intro σ v σ2 h
    simp only [Eval, Except.ok.injEq, Prod.mk.injEq] at h
    rw [← h.2]
    exact List.take_length σ
  | num_term x =>
    intro σ v σ2 h
    simp only [Eval, Except.ok.injEq, Prod.mk.injEq] at h
    rw [← h.2]
    exact List.take_length σ
  | scalar_value x =>
    intro σ v σ2 h
    simp only [Eval, Except.ok.injEq, Prod.mk.injEq] at h
    rw [← h.2]
    exact List.take_length σ
  | node kind ops shape =>
    intro σ v σ2 h
    cases hds : DIFFERENT_SPACE_RULES lib kind with
    | some op =>
      cases hargs : evalArgs lib ops σ with
      | error e2 =>
        simp only [Eval, hds, hargs, Except.bind] at h
        exact Except.noConfusion h
      | ok as =>
        simp only [Eval, hds, hargs, Except.bind] at h
        have h1 := evalArgs_frame_go lib ops σ as.1 as.2 (by rw [hargs])
        exact store_extends_trans h1 (numpy_reshaped_frame op shape as.1 as.2 v σ2 h)
    | none =>
      cases hargs : evalArgs lib ops σ with
      | error e2 =>
        simp only [Eval, hds, hargs, Except.bind] at h
        exact Except.noConfusion h
      | ok as =>
        simp only [Eval, hds, hargs, Except.bind] at h
        have h1 := evalArgs_frame_go lib ops σ as.1 as.2 (by rw [hargs])
        cases hss : SAME_SPACE_RULES lib kind with
        | none =>
          simp only [hss] at h
          exact Except.noConfusion h
        | some op =>
          simp only [hss] at h
          cases hc : mapE (coefs_of as.2) as.1 with
          | error e2 =>
            simp only [hc, Except.bind] at h
            exact Except.noConfusion h
          | ok coefs =>
            simp only [hc, Except.bind] at h
            cases hop : op coefs with
            | error e2 =>
              simp only [hop, Except.bind] at h
              exact Except.noConfusion h
            | ok Vc =>
              simp only [hop, Except.bind] at h
              cases hspc : space_of as.2 as.1 with
              | error e2 =>
                simp only [hspc, Except.bind] at h
                exact Except.noConfusion h
              | ok V =>
                simp only [hspc, Except.bind] at h
                exact store_extends_trans h1 (make_function_frame V Vc as.2 v σ2 h)
termination_by structural e

/-- Frame property of operand-list evaluation. -/
theorem evalArgs_frame_go (lib : NumpyLib) (es : ExprList) :
    ∀ (σ : Store) (vs : List Value) (σ2 : Store),
      evalArgs lib es σ = .ok (vs, σ2) → σ2.take σ.length = σ := by
  cases es with
  | nil =>
    intro σ vs σ2 h
    simp only [evalArgs, Except.ok.injEq, Prod.mk.injEq] at h
    rw [← h.2]
    exact List.take_length σ
  | cons e rest =>
    intro σ vs σ2 h
    cases he : Eval lib e σ with
    | error e2 =>
      simp only [evalArgs, he, Except.bind] at h
      exact Except.noConfusion h
    | ok p =>
      simp only [evalArgs, he, Except.bind] at h
      cases hr : evalArgs lib rest p.2 with
      | error e2 =>
        simp only [hr, Except.bind] at h
        exact Except.noConfusion h
      | ok q =>
        simp only [hr, Except.bind, Except.ok.injEq, Prod.mk.injEq] at h
        have h1 := eval_frame_go lib e σ p.1 p.2 (by rw [he])
        have h2 := evalArgs_frame_go lib rest p.2 q.1 q.2 (by rw [hr])
        rw [← h.2]
        exact store_extends_trans h1 h2
termination_by structural es
end

/-- C8: after any successful evaluation, the coefficient arrays (and spaces)
of all Functions that existed before — in particular all operand
Functions — are unchanged: the final store extends the initial one, and
every pre-existing reference still resolves to the same record.  The
interpreter only reads existing coefficients and writes only into newly
created Functions. -/
theorem evaluation_preserves_operands (lib : NumpyLib) (e : Expr) (σ : Store)
    (v : Value) (σ2 : Store) (h : Eval lib e σ = .ok (v, σ2)) :
    σ2.take σ.length = σ ∧ ∀ r, r < σ.length → σ2[r]? = σ[r]? := by
  have h1 := eval_frame_go lib e σ v σ2 h
  refine ⟨h1, fun r hr => ?_⟩
  conv_rhs => rw [← h1]
  rw [List.getElem?_take, if_pos hr]

/-- Witness for C8: the cross-mesh `dot` evaluation allocates a new result
Function and leaves both operands' records intact. -/
theorem evaluation_preserves_operands_witness :
    ([uOnA, vOnB, (⟨⟨elmCG1, meshB⟩, [25]⟩ : Function)] : Store).take 2 =
      [uOnA, vOnB] :=
  (evaluation_preserves_operands exLib dotExpr [uOnA, vOnB]
    (.fn 2) [uOnA, vOnB, ⟨⟨elmCG1, meshB⟩, [25]⟩] (by with_unfolding_all rfl)).1

end XCalc
